import Mathlib

/-!
# PokerSight GTO — verification of the signal-reconciliation core

Shallow embedding of the repository's core: the labeled-field text parser
(`src/unnamed/part_001`, second revision: `extractField`, `detectAction`,
`fixContradiction`, `validateAnalysisConsistency`, `parsePokerResponse`),
the pixel button detector (`src/utils/buttonDetector.ts`, second revision:
`detectActionButtons`, `detectButtonTransition`, `checkCluster`) and the
reconciliation FSM (`src/hooks/useAnalysisFSM.ts`: `handleResponse`,
`handleStreamDelta`, `handleButtonAppeared`), plus the button-disappearance
branch of the capture loop (`src/unnamed/part_008`, `startCaptureLoop`).

JavaScript regular expressions are embedded as character-level scanning
functions with the same matching semantics (leftmost match, alternation
order, greedy/lazy quantifier behaviour) derived pattern by pattern; each
scanning definition carries the pattern it implements.  JS `\s` is modelled
by the common whitespace characters (ASCII whitespace plus NBSP/BOM);
`String.prototype.toUpperCase` uppercases ASCII letters (CJK characters are
unaffected, as in the source's inputs).
-/

namespace PokerSight

/-! ## JS string primitives on `List Char` -/

/-- JS `\s` (modelled on the ASCII whitespace set plus NBSP and BOM). -/
def isWs (c : Char) : Bool :=
  c = ' ' || c = '\t' || c = '\n' || c = '\r' ||
  c = '\x0b' || c = '\x0c' || c = ' ' || c = '﻿'

/-- `lcStarts needle hay`: `hay` starts with `needle`. -/
def lcStarts : List Char → List Char → Bool
  | [], _ => true
  | _ :: _, [] => false
  | a :: as, b :: bs => a = b && lcStarts as bs

/-- Case-insensitive `lcStarts` (ASCII case folding, as JS `/i` on these patterns). -/
def lcStartsCI : List Char → List Char → Bool
  | [], _ => true
  | _ :: _, [] => false
  | a :: as, b :: bs => a.toUpper = b.toUpper && lcStartsCI as bs

/-- JS `String.prototype.includes`. -/
def lcContains (hay needle : List Char) : Bool :=
  match hay with
  | [] => lcStarts needle []
  | _ :: rest => lcStarts needle hay || lcContains rest needle

/-- JS `String.prototype.trim` (trims `\s`). -/
def lcTrim (s : List Char) : List Char :=
  ((s.dropWhile isWs).reverse.dropWhile isWs).reverse

/-- Characters of the current line (JS `.` does not match a newline). -/
def takeLine (s : List Char) : List Char := s.takeWhile (· ≠ '\n')

def strOf (l : List Char) : String := ⟨l⟩

/-- JS `String.prototype.trim` on `String`. -/
def jsTrim (s : String) : String := strOf (lcTrim s.data)

/-- JS `includes` on `String`. -/
def strContains (hay needle : String) : Bool := lcContains hay.data needle.data

/-- ASCII upper-casing of a string, JS `toUpperCase` on the inputs at hand. -/
def strUp (s : String) : String := ⟨s.data.map Char.toUpper⟩

/-! ## Field extraction (`extractField`, part_001 lines 351–358)

The source builds, for a key, the regex
`` `${key}[:：]\s*(.+?)(?=\s+(?:${others})[:：]|$)` `` with the `m` flag and
returns the trimmed first capture, or `""` on no match.  The embedding
scans for the leftmost occurrence of `key` followed by a half- or
full-width colon whose remainder admits the rest of the pattern:
`\s*` is greedy with backtracking, `(.+?)` lazily extends one
non-newline character at a time until the lookahead
`(?=\s+(?:others)[:：])` holds or the line (or string) ends. -/

/-- Known field labels — used to stop extraction at the next field boundary
(part_001 line 221). -/
def FIELD_LABELS : List String :=
  ["ACTION", "预判", "预判加注额", "加注额", "手牌", "公共牌", "底池", "阶段",
   "分析", "位置", "跟注", "赔率", "SPR"]

def isColon (c : Char) : Bool := c = ':' || c = '：'

/-- The lookahead `(?=\s+(?:others)[:：])` at `rest`: one or more whitespace
characters, then another recognized label, then a colon.  Because labels
start with a non-whitespace character, only the maximal whitespace run can
precede the label. -/
def labelBoundary (others : List (List Char)) (rest : List Char) : Bool :=
  let w := rest.takeWhile isWs
  w.length ≥ 1 && others.any (fun l =>
    let r := rest.drop w.length
    lcStarts l r &&
      (match r.drop l.length with
       | c :: _ => isColon c
       | [] => false))

/-- Lazy `(.+?)` up to the label lookahead or end of line: the capture holds
`c` and extends while the stop condition fails and the next character is
not a newline. -/
def capGo (others : List (List Char)) : Char → List Char → List Char
  | c, rest =>
    if rest.head? = some '\n' || labelBoundary others rest then [c]
    else
      match rest with
      | [] => [c]
      | d :: rest' => c :: capGo others d rest'

/-- One backtracking position of `\s*`: `k` whitespace characters consumed;
`(.+?)` must start with a non-newline character. -/
def tryCapAt (others : List (List Char)) (r : List Char) (k : Nat) : Option (List Char) :=
  match r.drop k with
  | c :: rest => if c = '\n' then none else some (capGo others c rest)
  | [] => none

/-- Greedy `\s*` with backtracking: largest `k` first. -/
def pickCap (others : List (List Char)) (r : List Char) : Nat → Option (List Char)
  | 0 => tryCapAt others r 0
  | k + 1 =>
    match tryCapAt others r (k + 1) with
    | some v => some v
    | none => pickCap others r k

/-- Value of a field after its colon: `\s*(.+?)(?=\s+(?:others)[:：]|$)`. -/
def fieldValue (others : List (List Char)) (r : List Char) : Option (List Char) :=
  pickCap others r (r.takeWhile isWs).length

/-- Leftmost occurrence of `key` + colon whose remainder completes the
pattern; on failure at a position the scan resumes one character later,
as a JS regex engine does. -/
def scanField (others : List (List Char)) (key : List Char) : List Char → Option (List Char)
  | [] => none
  | c :: rest =>
    match
      (if lcStarts key (c :: rest) then
        match (c :: rest).drop key.length with
        | d :: r2 => if isColon d then fieldValue others r2 else none
        | [] => none
      else none) with
    | some v => some v
    | none => scanField others key rest

/-- Extract a labeled field from structured AI output (part_001 lines 351–358). -/
def extractField (text key : String) : String :=
  let others := (FIELD_LABELS.filter (· ≠ key)).map String.data
  match scanField others key.data text.data with
  | some v => strOf (lcTrim v)
  | none => ""

/-! ## Generic regex-shaped scanners

Each scanner implements one concrete pattern shape used by the source,
with JS semantics: leftmost match first, alternatives in written order,
greedy/lazy quantifiers as annotated. -/

/-- Digit run for `(\d+)` (greedy). -/
def digitRun (s : List Char) : List Char := s.takeWhile (fun c => '0' ≤ c && c ≤ '9')

/-- Match `kw` (case-insensitively), optionally a colon (`[:：]`), then
`\s*(\d+)` at the start of `s`.  `\s*` is greedy; a digit is never
whitespace, so only the maximal whitespace run can precede the digits. -/
def matchKwNum (needColon : Bool) (kw s : List Char) : Option (List Char) :=
  if lcStartsCI kw s then
    let r := s.drop kw.length
    let afterColon : Option (List Char) :=
      if needColon then
        match r with
        | c :: r' => if isColon c then some r' else none
        | [] => none
      else some r
    match afterColon with
    | none => none
    | some r2 =>
      let d := digitRun (r2.drop (r2.takeWhile isWs).length)
      if d = [] then none else some d
  else none

/-- Leftmost match of `/(?:kw1|kw2|…)[:：]?\s*(\d+)/i`-shaped patterns. -/
def scanKwNum (needColon : Bool) (kws : List (List Char)) : List Char → Option (List Char)
  | [] => none
  | c :: rest =>
    match kws.findSome? (fun kw => matchKwNum needColon kw (c :: rest)) with
    | some d => some d
    | none => scanKwNum needColon kws rest

/-- At one position: a prefix alternative then a captured alternative,
returning the captured text as written in the input. -/
def matchPreCap (ci : Bool) (pres alts : List (List Char)) (s : List Char) : Option (List Char) :=
  pres.findSome? (fun p =>
    if (if ci then lcStartsCI p s else lcStarts p s) then
      let r := s.drop p.length
      alts.findSome? (fun a =>
        if (if ci then lcStartsCI a r else lcStarts a r) then some (r.take a.length) else none)
    else none)

/-- Leftmost match of `/(?:pre1|pre2|…)(alt1|alt2|…)/`-shaped patterns. -/
def scanPreCap (ci : Bool) (pres alts : List (List Char)) : List Char → Option (List Char)
  | [] => none
  | c :: rest =>
    match matchPreCap ci pres alts (c :: rest) with
    | some v => some v
    | none => scanPreCap ci pres alts rest

/-- Like `matchPreCap` with `\s*` between the prefix and the capture
(the capture alternatives start with non-whitespace, so the maximal run
is the only viable backtracking choice). -/
def matchPreWsCap (ci : Bool) (pres alts : List (List Char)) (s : List Char) : Option (List Char) :=
  pres.findSome? (fun p =>
    if (if ci then lcStartsCI p s else lcStarts p s) then
      let r0 := s.drop p.length
      let r := r0.drop (r0.takeWhile isWs).length
      alts.findSome? (fun a =>
        if (if ci then lcStartsCI a r else lcStarts a r) then some (r.take a.length) else none)
    else none)

/-- Leftmost match of `/(?:pre…)\s*(alt…)/`-shaped patterns. -/
def scanPreWsCap (ci : Bool) (pres alts : List (List Char)) : List Char → Option (List Char)
  | [] => none
  | c :: rest =>
    match matchPreWsCap ci pres alts (c :: rest) with
    | some v => some v
    | none => scanPreWsCap ci pres alts rest

/-- First alternative matching at the start of `r` (captured as written). -/
def altHere (alts : List (List Char)) (r : List Char) : Option (List Char) :=
  alts.findSome? (fun a => if lcStarts a r then some (r.take a.length) else none)

/-- Greedy `.{0,g}` then a captured alternative: longest gap of non-newline
characters first. -/
def gapTry (alts : List (List Char)) (r : List Char) : Nat → Option (List Char)
  | 0 => altHere alts r
  | g + 1 =>
    (if (r.take (g + 1)).length = g + 1 && (r.take (g + 1)).all (· ≠ '\n')
     then altHere alts (r.drop (g + 1)) else none) <|> gapTry alts r g

/-- At one position: a prefix alternative, `.{0,maxGap}` (greedy), then a
captured alternative. -/
def matchGapCap (pres alts : List (List Char)) (maxGap : Nat) (s : List Char) : Option (List Char) :=
  pres.findSome? (fun p =>
    if lcStarts p s then gapTry alts (s.drop p.length) maxGap else none)

/-- Leftmost match of `/(?:pre…).{0,maxGap}(alt…)/`-shaped patterns. -/
def scanGapCap (pres alts : List (List Char)) (maxGap : Nat) : List Char → Option (List Char)
  | [] => none
  | c :: rest =>
    match matchGapCap pres alts maxGap (c :: rest) with
    | some v => some v
    | none => scanGapCap pres alts maxGap rest

/-- `\s*` then a literal at `r` (`needle` starts with non-whitespace, so the
maximal whitespace run is the only viable backtracking choice). -/
def wsThen (needle r : List Char) : Bool :=
  lcStarts needle (r.drop (r.takeWhile isWs).length)

/-! ## Data model (part_001 lines 198–221, second revision) -/

inductive AdviceType
  | NEUTRAL | ACTION | FOLD | GOOD | WARNING | READY | SKIP
deriving DecidableEq, Repr

inductive ConfLevel
  | high | medium | low
deriving DecidableEq, Repr

structure AnalysisData where
  hand : String
  board : String
  stage : String
  position : String
  pot : String
  callAmt : String
  odds : String
  spr : String
  detail : String
  confidence : ConfLevel
  confidenceIssue : Option String
deriving DecidableEq, Repr

structure ParsedResponse where
  display : String
  type : AdviceType
  analysis : Option AnalysisData
deriving DecidableEq, Repr

/-- Result of `detectAction` / `fixContradiction` (an inline record in TS). -/
structure ActionRes where
  display : String
  type : AdviceType
deriving DecidableEq, Repr

/-! ## detectAction (part_001 lines 361–421)

`raiseAmt` is an optional string parameter used under a truthiness test;
`undefined` and `""` behave identically there, so it is modelled as a
`String` with emptiness as falsiness. -/

/-- JS `Math.round(p * 2 / 3)` for a natural `p`: `2p/3` is never exactly
half-way, so round-half-up equals `⌊(4p + 3) / 6⌋`. -/
def roundTwoThirds (p : Nat) : Nat := (4 * p + 3) / 6

/-- `parseInt(·, 10)` on a digit run. -/
def natOfDigits (l : List Char) : Nat :=
  l.foldl (fun acc c => acc * 10 + (c.toNat - '0'.toNat)) 0

/-- Leftmost digit run, `/(\d+)/`. -/
def scanDigits : List Char → Option (List Char)
  | [] => none
  | c :: rest =>
    if '0' ≤ c && c ≤ '9' then some (c :: digitRun rest) else scanDigits rest

/-- The raise-amount resolution used for a structured raise-size field:
`raiseAmt.match(/=\s*(\d+)/)` then `raiseAmt.match(/(\d+)/)?.[1]`. -/
def raiseAmtNumber (raiseAmt : String) : Option String :=
  match scanKwNum false [['=']] raiseAmt.data with
  | some d => some (strOf d)
  | none =>
    match scanDigits raiseAmt.data with
    | some d => some (strOf d)
    | none => none

/-- Determine action type and display string from raw text. -/
def detectAction (raw fullText raiseAmt : String) : ActionRes :=
  let up := strUp raw
  if strContains up "ALL-IN" || strContains up "ALLIN" || strContains raw "全压" then
    ⟨"全压 ALL-IN", .ACTION⟩
  else if strContains up "RAISE" || strContains up "BET" || strContains raw "加注" then
    match (if raiseAmt ≠ "" then raiseAmtNumber raiseAmt else none) with
    | some amount => ⟨"加注 " ++ amount, .ACTION⟩
    | none =>
      match scanKwNum false [("RAISE".data), ("BET".data), ("加注".data)] raw.data <|>
            scanKwNum false [("RAISE".data), ("BET".data), ("加注".data)] fullText.data with
      | some n => ⟨"加注 " ++ strOf n, .ACTION⟩
      | none =>
        match scanKwNum true [("底池".data)] fullText.data with
        | some p => ⟨"加注 " ++ toString (roundTwoThirds (natOfDigits p)), .ACTION⟩
        | none => ⟨"加注 RAISE", .ACTION⟩
  else if strContains up "CALL" || strContains raw "跟注" then
    ⟨"跟注 CALL", .GOOD⟩
  else if strContains up "CHECK" || strContains raw "过牌" then
    ⟨"过牌 CHECK", .GOOD⟩
  else if strContains up "FOLD" || strContains raw "弃牌" then
    ⟨"弃牌 FOLD", .FOLD⟩
  else if strContains up "READY" || strContains raw "准备" || strContains raw "即将" then
    let readyAction : Option String :=
      (scanPreCap false [("建议".data)]
        [("加注".data), ("跟注".data), ("弃牌".data), ("过牌".data), ("全压".data)] fullText.data).map strOf <|>
      (scanPreCap true [("应".data)]
        [("FOLD".data), ("CALL".data), ("RAISE".data), ("CHECK".data),
         ("弃牌".data), ("跟注".data), ("加注".data), ("过牌".data)] fullText.data).map strOf <|>
      (scanPreCap true [("则".data)]
        [("FOLD".data), ("CALL".data), ("RAISE".data),
         ("弃牌".data), ("跟注".data), ("加注".data)] fullText.data).map strOf <|>
      (scanPreCap false [("必须".data)]
        [("弃牌".data), ("跟注".data), ("加注".data), ("过牌".data)] fullText.data).map strOf
    let hint :=
      match readyAction with
      | none => "准备行动"
      | some cap =>
        let action := strUp cap
        if action = "FOLD" || action = "弃牌" then "预判: 弃牌"
        else if action = "CALL" || action = "跟注" then "预判: 跟注"
        else if strContains action "RAISE" || action = "加注" then "预判: 加注"
        else if action = "CHECK" || action = "过牌" then "预判: 过牌"
        else "预判: " ++ cap
    ⟨hint, .READY⟩
  else if strContains up "WAIT" || strContains raw "等待" then
    ⟨"非本人轮次", .NEUTRAL⟩
  else if strContains up "SKIP" then
    ⟨"", .SKIP⟩
  else
    ⟨strOf (raw.data.take 20) ++ (if raw.data.length > 20 then "..." else ""), .WARNING⟩

/-! ## validateAnalysisConsistency (part_001 lines 226–349) -/

/-- Parse card rank, `/^([2-9]|10|T|[JQKA])/i` on the trimmed card, then
`rank === '10' ? 'T' : rank`. -/
def parseCardRank (card : String) : String :=
  match (lcTrim card.data) with
  | [] => ""
  | c :: rest =>
    if '2' ≤ c && c ≤ '9' then strOf [c]
    else if c = '1' && rest.head? = some '0' then "T"
    else if c.toUpper = 'T' || c.toUpper = 'J' || c.toUpper = 'Q' ||
            c.toUpper = 'K' || c.toUpper = 'A' then strOf [c.toUpper]
    else ""

/-- Maximal non-whitespace runs (JS `split(/\s+/)`; its possible leading
empty token parses to the empty rank and is filtered out downstream, so
the two agree after the filter). -/
def wordsAux : List Char → List Char → List String
  | [], acc => if acc = [] then [] else [strOf acc.reverse]
  | c :: rest, acc =>
    if isWs c then
      (if acc = [] then wordsAux rest [] else strOf acc.reverse :: wordsAux rest [])
    else wordsAux rest (c :: acc)

def wordsWs (s : List Char) : List String := wordsAux s []

/-- Extract all card ranks from a hand or board string. -/
def extractRanks (cardsStr : String) : List String :=
  if cardsStr = "" || cardsStr = "无" || cardsStr = "-" then []
  else ((wordsWs cardsStr.data).map parseCardRank).filter (· ≠ "")

/-- Occurrences of a rank in a rank list (the source's `Map` counter). -/
def countRank (l : List String) (r : String) : Nat := (l.filter (· = r)).length

structure ValidationRes where
  confidence : ConfLevel
  issue : Option String
deriving DecidableEq, Repr

/-- The rank-character alternatives `[AKQJT2-9]` in class order. -/
def rankAlts : List (List Char) :=
  [['A'], ['K'], ['Q'], ['J'], ['T'], ['2'], ['3'], ['4'], ['5'], ['6'], ['7'], ['8'], ['9']]

/-- Check if the analysis description is consistent with the actual hand
and board; returns confidence level and optional issue description. -/
def validateAnalysisConsistency (hand board detail : String) : ValidationRes :=
  if detail = "" then ⟨.medium, none⟩
  else
    let handRanks := extractRanks hand
    let boardRanks := extractRanks board
    let allRanks := handRanks ++ boardRanks
    let topPairMatch : Option String :=
      (scanPreCap true [("顶对".data)] rankAlts detail.data).map strOf <|>
      (scanPreWsCap true [("顶对".data)] rankAlts detail.data).map strOf
    let checkTopPair : Option ValidationRes :=
      match topPairMatch with
      | some cap =>
        let claimedRank := strUp cap
        if !handRanks.contains claimedRank then
          some ⟨.low, some ("分析提到\"顶对" ++ claimedRank ++ "\"，但手牌" ++ hand ++
            "中没有" ++ claimedRank ++ "，可能是识别错误")⟩
        else if !boardRanks.contains claimedRank then
          some ⟨.low, some ("分析提到\"顶对" ++ claimedRank ++ "\"，但公共牌" ++ board ++
            "中没有" ++ claimedRank)⟩
        else none
      | none => none
    let pairMatch : Option String :=
      (scanPreCap true [("对".data)] rankAlts detail.data).map strOf
    let checkPair : Option ValidationRes :=
      match pairMatch with
      | some cap =>
        if topPairMatch.isSome then none
        else
          let claimedRank := strUp cap
          if !handRanks.contains claimedRank && !boardRanks.contains claimedRank then
            some ⟨.low, some ("分析提到\"对" ++ claimedRank ++
              "\"，但手牌和公共牌中都没有" ++ claimedRank)⟩
          else none
      | none => none
    let checkTwoPair : Option ValidationRes :=
      if strContains detail "两对" || strContains detail "两對" then
        let pairs := (allRanks.eraseDups).filter (fun r => countRank allRanks r ≥ 2)
        if pairs.length < 2 then
          some ⟨.low, some ("分析提到\"两对\"，但实际手牌" ++ hand ++ "和公共牌" ++ board ++
            "无法组成两对")⟩
        else none
      else none
    let checkTrips : Option ValidationRes :=
      if strContains detail "三条" || strContains detail "三條" then
        if !(allRanks.eraseDups).any (fun r => countRank allRanks r ≥ 3) then
          some ⟨.low, some "分析提到\"三条\"，但实际无法组成三条"⟩
        else none
      else none
    let checkStraight : Option ValidationRes :=
      if strContains detail "顺子" || strContains detail "順子" then
        if (allRanks.eraseDups).length < 5 then
          some ⟨.low, some "分析提到\"顺子\"，但牌张数不足"⟩
        else none
      else none
    let checkOverlap : Option ValidationRes :=
      match handRanks.find? (fun r => boardRanks.contains r) with
      | some rank =>
        some ⟨.low, some ("手牌" ++ hand ++ "和公共牌" ++ board ++ "都有" ++ rank ++
          "，识别可能有误（一副牌只有4张" ++ rank ++ "）")⟩
      | none => none
    let checkHandCount : Option ValidationRes :=
      if handRanks.length ≠ 2 && handRanks.length ≠ 0 then
        some ⟨.low, some ("识别到手牌数量" ++ toString handRanks.length ++
          "张，但应该恰好2张")⟩
      else none
    ((((((checkTopPair <|> checkPair) <|> checkTwoPair) <|> checkTrips) <|>
        checkStraight) <|> checkOverlap) <|> checkHandCount).getD ⟨.high, none⟩

/-! ## isFoldRecommended / extractRecommendedAction (part_001 lines 426–463) -/

/-- `/最终(选择)?弃牌|结论[：:]?\s*弃牌|综上.*弃牌/` as an existence test. -/
def foldConclusion (text : List Char) : Bool :=
  lcContains text "最终选择弃牌".data || lcContains text "最终弃牌".data ||
  foldAfterConclusionWord text || foldSummedUp text
where
  /-- `结论[：:]?\s*弃牌`: at some occurrence of `结论`, optionally one colon,
  then whitespace, then `弃牌` (the colon-absent branch only succeeds when
  `弃牌` follows the whitespace directly). -/
  foldAfterConclusionWord : List Char → Bool
    | [] => false
    | c :: rest =>
      (lcStarts "结论".data (c :: rest) &&
        (let r := (c :: rest).drop 2
         (match r with
          | d :: r' => (d = '：' || d = ':') && wsThen "弃牌".data r'
          | [] => false) ||
         wsThen "弃牌".data r)) ||
      foldAfterConclusionWord rest
  /-- `综上.*弃牌`: `弃牌` later on the same line as some `综上`. -/
  foldSummedUp : List Char → Bool
    | [] => false
    | c :: rest =>
      (lcStarts "综上".data (c :: rest) &&
        lcContains (takeLine ((c :: rest).drop 2)) "弃牌".data) ||
      foldSummedUp rest

/-- `/[\。，]\s*弃牌\s*[。\n]?$/m` as an existence test: a full-width period
or comma, whitespace, `弃牌`, then (with `\s*` backtracking and the
optional `[。\n]`) a multi-line `$`.  The tail succeeds iff the whitespace
run after `弃牌` reaches end of string, or contains a newline (the `$`
matches before it), or is followed by `。` at a line end. -/
def foldAtSentenceEnd (text : List Char) : Bool :=
  go text
where
  tailOK (r : List Char) : Bool :=
    let w := r.takeWhile isWs
    (r.drop w.length = []) || w.contains '\n' ||
    (match r.drop w.length with
     | '。' :: r2 => r2 = [] || r2.head? = some '\n'
     | _ => false)
  go : List Char → Bool
    | [] => false
    | c :: rest =>
      ((c = '。' || c = '，') && wsThen "弃牌".data rest &&
        tailOK ((rest.drop (rest.takeWhile isWs).length).drop 2)) ||
      go rest

/-- Check if the text clearly recommends FOLD as the final action. -/
def isFoldRecommended (text : String) : Bool :=
  foldConclusion text.data ||
  (["应弃牌", "应该弃牌", "选择弃牌", "建议弃牌", "必须弃牌", "果断弃牌",
    "直接弃牌", "只能弃牌", "只能选择弃牌"].any (fun p => strContains text p)) ||
  foldAtSentenceEnd text.data

/-- Map a captured recommendation keyword to the canonical action, or
`none` when it matches no branch of the source's `if` chain (in which
case the source's loop continues with the next pattern). -/
def mapRecommended (cap : String) : Option String :=
  let action := strUp cap
  if action = "ALLIN" || action = "全压" then some "ALLIN"
  else if action = "RAISE" || action = "BET" || action = "加注" then some "RAISE"
  else if action = "CALL" || action = "跟注" then some "CALL"
  else if action = "CHECK" || action = "过牌" then some "CHECK"
  else if action = "FOLD" || action = "弃牌" then some "FOLD"
  else none

/-- The shared prefix alternation `(?:建议|应|选择|最优|应当|应该)`. -/
def recPres : List (List Char) :=
  [("建议".data), ("应".data), ("选择".data), ("最优".data), ("应当".data), ("应该".data)]

/-- Extract the recommended action from analysis text. -/
def extractRecommendedAction (text : String) : Option String :=
  ((scanPreCap true recPres [("全压".data), ("ALL-IN".data), ("ALLIN".data)] text.data).map strOf
     |>.bind mapRecommended) <|>
  ((scanPreCap true recPres [("加注".data), ("RAISE".data), ("BET".data)] text.data).map strOf
     |>.bind mapRecommended) <|>
  ((scanPreCap true recPres [("跟注".data), ("CALL".data)] text.data).map strOf
     |>.bind mapRecommended) <|>
  ((scanPreCap true recPres [("过牌".data), ("CHECK".data)] text.data).map strOf
     |>.bind mapRecommended) <|>
  ((scanPreCap true recPres [("弃牌".data), ("FOLD".data)] text.data).map strOf
     |>.bind mapRecommended) <|>
  ((scanGapCap [("结论".data), ("最终".data), ("综上".data)]
      [("全压".data), ("加注".data), ("跟注".data), ("过牌".data), ("弃牌".data)] 5 text.data).map strOf
     |>.bind mapRecommended)

/-! ## fixContradiction (part_001 lines 470–525) -/

/-- Consistency check: if ACTION contradicts the analysis detail, trust the
analysis; FOLD is stable and never corrected. -/
def fixContradiction (result : ActionRes) (detail fullText raiseAmt : String) : ActionRes :=
  if detail = "" then result
  else if result.type = .FOLD then result
  else
    let fallbackFold : ActionRes :=
      if (result.type = .ACTION || result.type = .GOOD) &&
         (isFoldRecommended detail || isFoldRecommended fullText) then
        ⟨"弃牌 FOLD", .FOLD⟩
      else result
    match extractRecommendedAction detail <|> extractRecommendedAction fullText with
    | some recommendedAction =>
      if recommendedAction = "FOLD" then ⟨"弃牌 FOLD", .FOLD⟩
      else
        let currentIsAction := result.type = .ACTION
        let currentIsGood := result.type = .GOOD
        if recommendedAction = "CALL" && currentIsAction then ⟨"跟注 CALL", .GOOD⟩
        else if recommendedAction = "CHECK" && currentIsAction then ⟨"过牌 CHECK", .GOOD⟩
        else if recommendedAction = "ALLIN" && currentIsGood then ⟨"全压 ALL-IN", .ACTION⟩
        else if recommendedAction = "RAISE" && currentIsGood then
          match (if raiseAmt ≠ "" then raiseAmtNumber raiseAmt else none) with
          | some amount => ⟨"加注 " ++ amount, .ACTION⟩
          | none =>
            match scanKwNum true [("底池".data)] fullText.data with
            | some p => ⟨"加注 " ++ toString (roundTwoThirds (natOfDigits p)), .ACTION⟩
            | none => ⟨"加注 RAISE", .ACTION⟩
        else fallbackFold
    | none => fallbackFold

/-! ## parsePokerResponse (part_001 lines 528–597) -/

/-- Greedy `\s*(.+)` at one backtracking position `k`: the capture is the
rest of the line and must start with a non-newline character. -/
def tryLineCapAt (r : List Char) (k : Nat) : Option (List Char × Nat) :=
  match r.drop k with
  | c :: rest => if c = '\n' then none else some (c :: takeLine rest, k)
  | [] => none

/-- Greedy `\s*` with backtracking for `\s*(.+)`: largest `k` first. -/
def pickLineCap (r : List Char) : Nat → Option (List Char × Nat)
  | 0 => tryLineCapAt r 0
  | k + 1 =>
    match tryLineCapAt r (k + 1) with
    | some v => some v
    | none => pickLineCap r k

/-- One attempt of `/ACTION[:：]\s*(.+)/i` at the current position; on a
match returns the capture and the total number of characters the whole
match consumed (the `g`-flag scan resumes after it). -/
def tryActionMatch (s : List Char) : Option (List Char × Nat) :=
  if lcStartsCI "ACTION".data s then
    match s.drop 6 with
    | d :: r2 =>
      if isColon d then
        match pickLineCap r2 (r2.takeWhile isWs).length with
        | some (cap, k) => some (cap, 6 + 1 + k + cap.length)
        | none => none
      else none
    | [] => none
  else none

/-- All captures of `text.matchAll(/ACTION[:：]\s*(.+)/gi)` in order.  The
scan advances at least one character per step, so the input length bounds
the number of steps; the explicit bound keeps the recursion structural. -/
def actionMatchesFuel : Nat → List Char → List (List Char)
  | 0, _ => []
  | _, [] => []
  | fuel + 1, c :: rest =>
    match tryActionMatch (c :: rest) with
    | some (cap, len) => cap :: actionMatchesFuel fuel (rest.drop (len - 1))
    | none => actionMatchesFuel fuel rest

def actionMatchesGo (s : List Char) : List (List Char) :=
  actionMatchesFuel s.length s

def actionLineMatches (text : String) : List String :=
  (actionMatchesGo text.data).map strOf

/-- The `for (const m of actionMatches)` loop and the first-line /
full-text fallbacks; every return path attaches the same `analysis`. -/
def processMatches (text raiseAmt preRaiseAmt finalDetail : String)
    (analysis : Option AnalysisData) : List String → ParsedResponse
  | [] =>
    let firstLine := jsTrim (strOf (takeLine text.data))
    let firstLineResult := detectAction firstLine text raiseAmt
    if firstLineResult.type ≠ .WARNING then
      let fixed := fixContradiction firstLineResult finalDetail text raiseAmt
      ⟨fixed.display, fixed.type, analysis⟩
    else
      let fallbackResult := detectAction text text raiseAmt
      let fixedFallback := fixContradiction fallbackResult finalDetail text raiseAmt
      ⟨fixedFallback.display, fixedFallback.type, analysis⟩
  | m :: ms =>
    let result := detectAction (jsTrim m) text raiseAmt
    if result.type = .NEUTRAL then
      let preAction := extractField text "预判"
      if preAction ≠ "" then
        let preResult := detectAction preAction text preRaiseAmt
        if preResult.type ≠ .WARNING && preResult.type ≠ .NEUTRAL then
          ⟨"预判: " ++ preResult.display, .READY, analysis⟩
        else ⟨result.display, result.type, analysis⟩
      else ⟨result.display, result.type, analysis⟩
    else if result.type ≠ .WARNING then
      let fixed := fixContradiction result finalDetail text raiseAmt
      ⟨fixed.display, fixed.type, analysis⟩
    else processMatches text raiseAmt preRaiseAmt finalDetail analysis ms

/-- Full parser: structured fields + action detection with multi-layer
fallback. -/
def parsePokerResponse (text : String) : ParsedResponse :=
  if jsTrim text = "" then ⟨"非本人轮次", .NEUTRAL, none⟩
  else
    let hand := extractField text "手牌"
    let board := extractField text "公共牌"
    let stage := extractField text "阶段"
    let position := extractField text "位置"
    let pot := extractField text "底池"
    let callAmt := extractField text "跟注"
    let odds := extractField text "赔率"
    let spr := extractField text "SPR"
    let detail := extractField text "分析"
    let raiseAmt := extractField text "加注额"
    let preRaiseAmt := extractField text "预判加注额"
    let hasAnyField := hand ≠ "" || board ≠ "" || stage ≠ "" || detail ≠ ""
    let finalDetail := if hasAnyField then detail else jsTrim text
    let validation := validateAnalysisConsistency hand board finalDetail
    let hasStructuredData := hand ≠ "" || board ≠ "" || stage ≠ "" || finalDetail ≠ ""
    let analysis : Option AnalysisData :=
      if hasStructuredData then
        some ⟨hand, board, stage, position, pot, callAmt, odds, spr, finalDetail,
              validation.confidence, validation.issue⟩
      else none
    processMatches text raiseAmt preRaiseAmt finalDetail analysis (actionLineMatches text)

/-! ## Pixel detector result type (buttonDetector.ts lines 123–135) -/

inductive BtnConfidence
  | HIGH | MEDIUM | LOW
deriving DecidableEq, Repr

structure ButtonDetectionResult where
  hasRedButton : Bool
  hasBlueButton : Bool
  redDensity : ℚ
  confidence : BtnConfidence
deriving DecidableEq, Repr

def DEFAULT_RESULT : ButtonDetectionResult :=
  { hasRedButton := false, hasBlueButton := false, redDensity := 0, confidence := .LOW }

/-! ## Reconciliation FSM (useAnalysisFSM.ts)

The hook's mutable refs and React state are modelled as one record; the
`UiState` is the `phase`/`display`/`analysis` triple.  The TS `phase` is a
string at runtime (the `response.type as …` cast is erased), so it is
embedded as a `String`.  `Date.now()` values are passed in as an explicit
`now : Int`. -/

structure FSMState where
  phase : String
  display : String
  analysis : Option AnalysisData
  pinnedAnalysis : Option AnalysisData
  waitingConfirmCount : Nat
  actionConfirmCount : Nat
  lastActionSetTime : Int
  lastState : Option (AdviceType × String)
  earlyActionDetected : Bool
  consecutivePixelRejectCount : Nat
deriving DecidableEq, Repr

def PIXEL_REJECT_ESCAPE_THRESHOLD : Nat := 5

/-- The FSM's initial state (`useState` initializer and ref initializers). -/
def initialFSMState : FSMState :=
  { phase := "WAITING", display := "等待中...", analysis := none,
    pinnedAnalysis := none, waitingConfirmCount := 0, actionConfirmCount := 0,
    lastActionSetTime := 0, lastState := none, earlyActionDetected := false,
    consecutivePixelRejectCount := 0 }

def isWaitingPhase (phase : String) : Bool := phase = "WAITING"

def isActionPhase (phase : String) : Bool :=
  ["ACTION", "FOLD", "GOOD", "READY"].contains phase

/-- `response.type === 'NEUTRAL' || response.type === 'READY'`. -/
def waitingLike (t : AdviceType) : Bool := t = .NEUTRAL || t = .READY

/-- The runtime value of a TS `AdviceType` string (the
`response.type as 'ACTION' | 'FOLD' | 'GOOD' | 'READY'` cast is erased at
runtime, so the committed phase is whatever string the type holds). -/
def adviceTypeStr : AdviceType → String
  | .NEUTRAL => "NEUTRAL"
  | .ACTION => "ACTION"
  | .FOLD => "FOLD"
  | .GOOD => "GOOD"
  | .WARNING => "WARNING"
  | .READY => "READY"
  | .SKIP => "SKIP"

/-! `handleResponse` is embedded as the composition of its commented
sections (useAnalysisFSM.ts lines 61–176); each stage is a separate
definition to keep the state-threading explicit.  `updateState` mutates
`phase`/`display`/`analysis`; `setPinnedAnalysis` and the refs are the
remaining fields. -/

/-- Bi-directional confirmation counters (lines 71–78). -/
def fsmStreakUpdate (waiting : Bool) (s : FSMState) : FSMState :=
  if waiting then
    { s with waitingConfirmCount := s.waitingConfirmCount + 1, actionConfirmCount := 0 }
  else
    { s with actionConfirmCount := s.actionConfirmCount + 1, waitingConfirmCount := 0 }

/-- Anti-flicker guard (lines 84–97): `some` means "suppressed, return this
state" (pinning a READY analysis), `none` means fall through. -/
def fsmAntiFlicker (now : Int) (r : ParsedResponse) (b : ButtonDetectionResult)
    (currentPhase : String) (s : FSMState) : Option FSMState :=
  if waitingLike r.type && isActionPhase currentPhase &&
      (b.hasRedButton && decide (now - s.lastActionSetTime < 3000) &&
        decide (s.waitingConfirmCount < 2)) then
    some (if r.type = .READY && r.analysis.isSome then
            { s with pinnedAnalysis := r.analysis }
          else s)
  else none

/-- Pixel correction with deadlock escape (lines 99–118): `Sum.inr` is the
rejecting early return, `Sum.inl` the fall-through state. -/
def fsmPixelGuard (r : ParsedResponse) (b : ButtonDetectionResult)
    (s : FSMState) : FSMState ⊕ FSMState :=
  if waitingLike r.type && b.hasRedButton then
    if s.consecutivePixelRejectCount + 1 ≥ PIXEL_REJECT_ESCAPE_THRESHOLD then
      Sum.inl { s with consecutivePixelRejectCount := 0 }
    else if r.analysis.isSome then
      Sum.inr { s with consecutivePixelRejectCount := s.consecutivePixelRejectCount + 1,
                       pinnedAnalysis := r.analysis }
    else
      Sum.inr { s with consecutivePixelRejectCount := s.consecutivePixelRejectCount + 1 }
  else
    Sum.inl { s with consecutivePixelRejectCount := 0 }

/-- Confirmations required by pixel confidence (line 125; also line 213). -/
def requiredConfirms (c : BtnConfidence) : Nat :=
  if c = .HIGH then 1 else if c = .MEDIUM then 1 else 2

/-- Anti-misjudgment guard (lines 120–131): `true` means "suppressed". -/
def fsmAntiMisjudgment (r : ParsedResponse) (b : ButtonDetectionResult)
    (currentPhase : String) (s : FSMState) : Bool :=
  !(waitingLike r.type) && decide (currentPhase = "WAITING") &&
    decide (s.actionConfirmCount < requiredConfirms b.confidence)

/-- Deduplication, pinned-analysis refresh and commit (lines 133–175). -/
def fsmDedupCommit (now : Int) (r : ParsedResponse) (s : FSMState) : FSMState :=
  let waiting := waitingLike r.type
  let isDuplicate :=
    match s.lastState with
    | some (t, d) =>
      if waitingLike t && waiting then true
      else t = r.type && d = r.display
    | none => false
  let s := if r.analysis.isSome then { s with pinnedAnalysis := r.analysis } else s
  if isDuplicate then s
  else
    let s := { s with lastState := some (r.type, r.display) }
    if waiting then
      { s with phase := "WAITING", display := "等待中...", analysis := s.pinnedAnalysis }
    else
      { s with lastActionSetTime := now,
               phase := adviceTypeStr r.type,
               display := r.display,
               analysis := s.pinnedAnalysis <|> r.analysis }

/-- `handleResponse` (useAnalysisFSM.ts lines 61–176). -/
def handleResponse (now : Int) (response : ParsedResponse)
    (buttonResult : ButtonDetectionResult) (s0 : FSMState) : FSMState :=
  -- Reset early action detection for each new response
  let s := { s0 with earlyActionDetected := false }
  -- SKIP = non-poker screen, skip UI update
  if response.type = .SKIP then s
  else
    let currentPhase := s.phase
    let s := fsmStreakUpdate (waitingLike response.type) s
    match fsmAntiFlicker now response buttonResult currentPhase s with
    | some suppressed => suppressed
    | none =>
      match fsmPixelGuard response buttonResult s with
      | Sum.inr rejected => rejected
      | Sum.inl s =>
        if fsmAntiMisjudgment response buttonResult currentPhase s then s
        else fsmDedupCommit now response s

/-- The `/ACTION[:：]\s*(CHECK|FOLD|CALL|RAISE|ALLIN|BET|WAITING|SKIP)/i`
test of `handleStreamDelta` (existence; the keyword starts with a
non-whitespace character, so `\s*` is the maximal run). -/
def streamActionSeen : List Char → Bool
  | [] => false
  | c :: rest =>
    (lcStartsCI "ACTION".data (c :: rest) &&
      (match (c :: rest).drop 6 with
       | d :: r2 =>
         isColon d &&
           (["CHECK", "FOLD", "CALL", "RAISE", "ALLIN", "BET", "WAITING", "SKIP"].any
             (fun kw => lcStartsCI kw.data (r2.drop (r2.takeWhile isWs).length)))
       | [] => false)) ||
    streamActionSeen rest

/-- `/分析[:：]/i` test. -/
def hasAnalysisMarker (text : String) : Bool :=
  strContains text "分析:" || strContains text "分析："

/-- `handleStreamDelta` (useAnalysisFSM.ts lines 178–224). -/
def handleStreamDelta (now : Int) (accumulatedText : String)
    (buttonResult : ButtonDetectionResult) (s : FSMState) : FSMState :=
  if s.earlyActionDetected then s
  else if !streamActionSeen accumulatedText.data then s
  else
    let earlyResult := parsePokerResponse accumulatedText
    if earlyResult.type = .SKIP then s
    else
      let w := waitingLike earlyResult.type
      if w then
        -- WAITING case — safe to display immediately
        let s := { s with earlyActionDetected := true,
                          waitingConfirmCount := s.waitingConfirmCount + 1 }
        let showingAction := isActionPhase s.phase
        if showingAction && buttonResult.hasRedButton &&
            decide (now - s.lastActionSetTime < 3000) &&
            decide (s.waitingConfirmCount < 2) then
          s
        else
          { s with phase := "WAITING", display := "等待中...", analysis := s.pinnedAnalysis }
      else
        -- ACTION case — wait for the 分析 field before displaying
        if !hasAnalysisMarker accumulatedText then s
        else
          let s := { s with earlyActionDetected := true }
          let fullResult := parsePokerResponse accumulatedText
          if fullResult.type = .SKIP || fullResult.type = .NEUTRAL ||
             fullResult.type = .READY then s
          else
            let s := { s with actionConfirmCount := s.actionConfirmCount + 1,
                              waitingConfirmCount := 0 }
            if s.phase = "WAITING" &&
                decide (s.actionConfirmCount < requiredConfirms buttonResult.confidence) then
              s
            else
              { s with phase := adviceTypeStr fullResult.type,
                       display := fullResult.display,
                       analysis := s.pinnedAnalysis <|> fullResult.analysis }

/-- `handleButtonAppeared` (useAnalysisFSM.ts lines 227–229): pre-seed the
action confirmation counter when the pixel control appears. -/
def handleButtonAppeared (s : FSMState) : FSMState :=
  { s with actionConfirmCount := max s.actionConfirmCount 1 }

/-- The `transition.disappeared` branch of the capture loop
(part_008 lines 639–643): pre-seed the waiting confirmation counter to
speed up the next ACTION→WAITING transition. -/
def onButtonDisappeared (s : FSMState) : FSMState :=
  { s with waitingConfirmCount := max s.waitingConfirmCount 1 }

/-- `detectButtonTransition` (buttonDetector.ts lines 248–258). -/
structure ButtonTransition where
  appeared : Bool
  disappeared : Bool
  current : Bool
deriving DecidableEq, Repr

def detectButtonTransition (prevHadButtons : Bool)
    (current : ButtonDetectionResult) : ButtonTransition :=
  let currentHas := current.hasRedButton
  { appeared := !prevHadButtons && currentHas,
    disappeared := prevHadButtons && !currentHas,
    current := currentHas }

/-! ## Pixel detector (buttonDetector.ts, lines 86–294)

A frame is a pixel function with a width and height (the `getImageData`
buffer of the scanned region reads through to it).  The TS `Math.floor`
of a float ratio product is modelled by exact rational floors
(`w * 5 / 100` for `w * 0.05`, and so on); the sub-percent float rounding
of the literals does not affect the gating structure under study.
Thresholds `0.006`, `0.008`, `0.03` are the rationals `6/1000`, `8/1000`,
`3/100`.  JS divides floats, so with a zero `cellW`/`cellH` the grid index
would be `Infinity`/`NaN` (canvases narrower than 14 pixels); the model
uses the truncating natural division (index 0) in that degenerate corner. -/

structure Pixel where
  r : Nat
  g : Nat
  b : Nat

structure Canvas where
  width : Nat
  height : Nat
  pix : Nat → Nat → Pixel

def SAMPLE_STEP : Nat := 4
def RED_THRESHOLD : ℚ := 6 / 1000
def BLUE_THRESHOLD : ℚ := 8 / 1000
def GRID_DENSITY_THRESHOLD : ℚ := 3 / 100
def GRID_COLS : Nat := 4
def GRID_ROWS : Nat := 3

/-- 判断是否为红色像素（饱和红色，弃牌按钮）. -/
def isRedPixel (r g b : Nat) : Bool := r > 170 && g < 100 && b < 100

/-- 判断是否为蓝色像素（跟注/加注按钮）. -/
def isBluePixel (r g b : Nat) : Bool :=
  b > 150 && r < 100 && g < 150 && decide ((b : Int) - (r : Int) > 60)

/-- Sample indices `0, step, 2·step, … < len`. -/
def sampleIdxs (len step : Nat) : List Nat :=
  (List.range ((len + step - 1) / step)).map (· * step)

structure ScanAcc where
  redCount : Nat
  redSampleCount : Nat
  blueCount : Nat
  blueSampleCount : Nat
  gridRed : Nat → Nat → Nat
  gridTotal : Nat → Nat → Nat

def emptyScanAcc : ScanAcc :=
  { redCount := 0, redSampleCount := 0, blueCount := 0, blueSampleCount := 0,
    gridRed := fun _ _ => 0, gridTotal := fun _ _ => 0 }

def bumpGrid (g : Nat → Nat → Nat) (row col : Nat) : Nat → Nat → Nat :=
  fun r c => if r = row && c = col then g r c + 1 else g r c

/-- One sampled pixel of the scan loop (buttonDetector.ts lines 184–215). -/
def scanStep (c : Canvas) (regionStartX regionStartY foldStartX foldEndX
    blueStartX blueEndX cellW cellH : Nat) (acc : ScanAcc) (yx : Nat × Nat) : ScanAcc :=
  let y := yx.1
  let x := yx.2
  let p := c.pix (regionStartX + x) (regionStartY + y)
  let acc :=
    if foldStartX ≤ x && x < foldEndX then
      let col := min ((x - foldStartX) / cellW) (GRID_COLS - 1)
      let row := min (y / cellH) (GRID_ROWS - 1)
      let acc' := { acc with redSampleCount := acc.redSampleCount + 1,
                             gridTotal := bumpGrid acc.gridTotal row col }
      if isRedPixel p.r p.g p.b then
        { acc' with redCount := acc'.redCount + 1,
                    gridRed := bumpGrid acc'.gridRed row col }
      else acc'
    else acc
  if blueStartX ≤ x && x < blueEndX then
    let acc' := { acc with blueSampleCount := acc.blueSampleCount + 1 }
    if isBluePixel p.r p.g p.b then { acc' with blueCount := acc'.blueCount + 1 }
    else acc'
  else acc

/-- Region geometry: scan band `x ∈ [0.05w, 0.80w)`, `y ∈ [0.76h, 0.88h)`;
fold sub-band `[0.05w, 0.35w)`; blue sub-band `[0.30w, 0.80w)`. -/
def regionStartXOf (w : Nat) : Nat := w * 5 / 100
def regionEndXOf (w : Nat) : Nat := w * 80 / 100
def regionStartYOf (h : Nat) : Nat := h * 76 / 100
def regionEndYOf (h : Nat) : Nat := h * 88 / 100
def regionWOf (w : Nat) : Nat := regionEndXOf w - regionStartXOf w
def regionHOf (h : Nat) : Nat := regionEndYOf h - regionStartYOf h

/-- The full sampling pass over the scan region. -/
def buttonScan (c : Canvas) : ScanAcc :=
  let w := c.width
  let h := c.height
  let regionStartX := regionStartXOf w
  let regionStartY := regionStartYOf h
  let regionW := regionWOf w
  let regionH := regionHOf h
  let foldStartX := w * 5 / 100 - regionStartX
  let foldEndX := w * 35 / 100 - regionStartX
  let blueStartX := w * 30 / 100 - regionStartX
  let blueEndX := w * 80 / 100 - regionStartX
  let foldW := max (foldEndX - foldStartX) 1
  let cellW := foldW / GRID_COLS
  let cellH := regionH / GRID_ROWS
  let pts := (sampleIdxs regionH SAMPLE_STEP).flatMap
    (fun y => (sampleIdxs regionW SAMPLE_STEP).map (fun x => (y, x)))
  pts.foldl
    (scanStep c regionStartX regionStartY foldStartX foldEndX blueStartX blueEndX cellW cellH)
    emptyScanAcc

/-- Red density over the fold sub-band samples. -/
def redDensityOf (c : Canvas) : ℚ :=
  let acc := buttonScan c
  if acc.redSampleCount > 0 then (acc.redCount : ℚ) / (acc.redSampleCount : ℚ) else 0

/-- Blue density over the blue sub-band samples. -/
def blueDensityOf (c : Canvas) : ℚ :=
  let acc := buttonScan c
  if acc.blueSampleCount > 0 then (acc.blueCount : ℚ) / (acc.blueSampleCount : ℚ) else 0

/-- One grid cell passes the local-density gate: a nonzero sample count and
a red density not below `GRID_DENSITY_THRESHOLD`. -/
def cellOK (gridRed gridTotal : Nat → Nat → Nat) (r c : Nat) : Bool :=
  gridTotal r c ≠ 0 &&
    decide ((gridRed r c : ℚ) / (gridTotal r c : ℚ) ≥ GRID_DENSITY_THRESHOLD)

/-- 检查网格中是否存在 2x2 子网格，其中每格红色密度都超过阈值
(buttonDetector.ts lines 276–294). -/
def checkCluster (gridRed gridTotal : Nat → Nat → Nat) : Bool :=
  (List.range (GRID_ROWS - 1)).any fun row =>
    (List.range (GRID_COLS - 1)).any fun col =>
      (List.range 2).all fun dr =>
        (List.range 2).all fun dc =>
          cellOK gridRed gridTotal (row + dr) (col + dc)

/-- 检测 canvas 中是否存在 WePoker 操作按钮
(buttonDetector.ts lines 141–243; the `ctx === null` branch has no
counterpart because the canvas model always carries pixel data). -/
def detectActionButtons (c : Canvas) : ButtonDetectionResult :=
  if c.width = 0 || c.height = 0 then DEFAULT_RESULT
  else if regionWOf c.width = 0 || regionHOf c.height = 0 then DEFAULT_RESULT
  else
    let acc := buttonScan c
    let redDensity := redDensityOf c
    let blueDensity := blueDensityOf c
    let hasRedOverall := decide (redDensity > RED_THRESHOLD)
    let hasRedCluster := checkCluster acc.gridRed acc.gridTotal
    let hasBlueButton := decide (blueDensity > BLUE_THRESHOLD)
    let hasRedButton := hasRedOverall && hasRedCluster
    let confidence : BtnConfidence :=
      if hasRedButton && hasBlueButton then .HIGH
      else if hasRedButton then .MEDIUM
      else .LOW
    { hasRedButton := hasRedButton, hasBlueButton := hasBlueButton,
      redDensity := redDensity, confidence := confidence }

/-! ## Claim theorems -/

/-- A concrete engine state showing the Acting phase (reachable after a
committed ACTION response). -/
def actingState : FSMState :=
  { initialFSMState with
    phase := "ACTION",
    display := "加注 120",
    lastState := some (.ACTION, "加注 120"),
    lastActionSetTime := 0 }

/-- C7 counterexample: the claim's literal example fails on the code —
`A` and `B` are not recognized field labels, so the boundary lookahead
never fires and extracting field `A` from `"A: 1 B: 2"` yields the whole
tail `"1 B: 2"`, not `"1"`. -/
theorem C7_counterexample :
    extractField "A: 1 B: 2" "A" ≠ "1" ∧ extractField "A: 1 B: 2" "A" = "1 B: 2" := by
  decide

/-- C7 (amended): for recognized field labels the extracted value runs from
just after the label separator to just before the next recognized label on
the same logical line, or to the end of the line: extracting `底池` from
`"底池: 1 跟注: 2"` yields `"1"` (not `"1 跟注: 2"`), extracting `跟注`
yields `"2"`, `ACTION` stops before a following recognized label on the
same line, and a value before a newline stops at the end of its line. -/
theorem C7_field_boundary :
    extractField "底池: 1 跟注: 2" "底池" = "1" ∧
    extractField "底池: 1 跟注: 2" "跟注" = "2" ∧
    extractField "ACTION: RAISE 120 底池: 80" "ACTION" = "RAISE 120" ∧
    extractField "手牌: Ah Kd\n底池: 80" "手牌" = "Ah Kd" := by
  decide

/-- C9 counterexample: at a frame where the pixel control disappears
(`detectButtonTransition` reports `disappeared`), the engine performs no
full reset to Waiting — the disappearance handler only pre-seeds the
waiting confirmation counter, leaving the Acting `UiState` in place. -/
theorem C9_counterexample :
    (detectButtonTransition true ⟨false, false, 0, .LOW⟩).disappeared = true ∧
    (onButtonDisappeared actingState).phase = "ACTION" ∧
    (onButtonDisappeared actingState).phase ≠ "WAITING" ∧
    onButtonDisappeared actingState ≠ initialFSMState := by
  decide

/-- C9 (amended): when the pixel primary control disappears
(`disappeared` is exactly "was present and is no longer"), the engine only
pre-seeds `waitingConfirmCount` to at least one — accelerating, not
forcing, the next Acting→Waiting transition; `UiState` (phase, display,
analysis) and every other engine field are unchanged. -/
theorem C9_disappearance_preseed :
    ∀ (s : FSMState) (prev : Bool) (cur : ButtonDetectionResult),
      onButtonDisappeared s =
        { s with waitingConfirmCount := max s.waitingConfirmCount 1 } ∧
      (onButtonDisappeared s).phase = s.phase ∧
      (onButtonDisappeared s).display = s.display ∧
      (onButtonDisappeared s).analysis = s.analysis ∧
      (detectButtonTransition prev cur).disappeared = (prev && !cur.hasRedButton) :=
  fun _ _ _ => ⟨rfl, rfl, rfl, rfl, rfl⟩

/-- C4 counterexample: a Skip-classified response does not leave the whole
engine state untouched — `handleResponse` unconditionally clears the
early-action-detected flag before the Skip guard, so from a state with the
flag set the state does change (while `UiState` stays unchanged). -/
theorem C4_counterexample :
    handleResponse 0 ⟨"", .SKIP, none⟩ ⟨true, false, 0, .MEDIUM⟩
        { actingState with earlyActionDetected := true } ≠
      { actingState with earlyActionDetected := true } ∧
    (handleResponse 0 ⟨"", .SKIP, none⟩ ⟨true, false, 0, .MEDIUM⟩
        { actingState with earlyActionDetected := true }).phase = actingState.phase := by
  decide

/-- C4 (amended): processing a Skip-classified response, for every current
engine state and every pixel signal, leaves `UiState` unchanged and
updates no engine state other than the early-action-detected flag, which
`handleResponse` clears for every incoming response. -/
theorem C4_skip_isolation :
    ∀ (now : Int) (r : ParsedResponse) (b : ButtonDetectionResult) (s : FSMState),
      r.type = .SKIP →
      handleResponse now r b s = { s with earlyActionDetected := false } := by
  intro now r b s h
  unfold handleResponse
  simp [h]

/-- C4 witness. -/
theorem C4_skip_isolation_witness :
    handleResponse 7 ⟨"", .SKIP, none⟩ ⟨true, false, 0, .HIGH⟩ actingState =
      { actingState with earlyActionDetected := false } :=
  C4_skip_isolation 7 ⟨"", .SKIP, none⟩ ⟨true, false, 0, .HIGH⟩ actingState rfl

/-- C8: `detectActionButtons` reports the primary control present exactly
when the frame is non-degenerate, the overall red-density gate passes and
the 2×2 spatial-cluster gate passes; its confidence is `HIGH` when red and
blue are both present, `MEDIUM` when only red is, and `LOW` otherwise. -/
theorem C8_detector_gating :
    ∀ c : Canvas,
      ((detectActionButtons c).hasRedButton =
        (!(decide (c.width = 0) || decide (c.height = 0)) &&
         !(decide (regionWOf c.width = 0) || decide (regionHOf c.height = 0)) &&
         (decide (redDensityOf c > RED_THRESHOLD) &&
          checkCluster (buttonScan c).gridRed (buttonScan c).gridTotal))) ∧
      ((detectActionButtons c).confidence =
        (if (detectActionButtons c).hasRedButton && (detectActionButtons c).hasBlueButton
         then .HIGH
         else if (detectActionButtons c).hasRedButton then .MEDIUM
         else .LOW)) := by
  intro c
  unfold detectActionButtons
  split
  · rename_i h
    simp [DEFAULT_RESULT, h]
  · rename_i h1
    split
    · rename_i h2
      simp [DEFAULT_RESULT, eq_false_of_ne_true h1, h2]
    · rename_i h2
      simp [DEFAULT_RESULT, eq_false_of_ne_true h1, eq_false_of_ne_true h2]

/-- Every return path of the action-selection loop carries the `analysis`
it was given. -/
lemma processMatches_analysis (text raiseAmt preRaiseAmt finalDetail : String)
    (analysis : Option AnalysisData) :
    ∀ ms : List String,
      (processMatches text raiseAmt preRaiseAmt finalDetail analysis ms).analysis =
        analysis := by
  intro ms
  induction ms with
  | nil =>
    simp only [processMatches]
    repeat' split
    all_goals rfl
  | cons m ms ih =>
    simp only [processMatches]
    repeat' split
    all_goals first | rfl | exact ih

/-- The contradiction-reconciliation step short-circuits on Fold. -/
lemma fixContradiction_fold (result : ActionRes) (detail fullText raiseAmt : String)
    (h : result.type = .FOLD) :
    fixContradiction result detail fullText raiseAmt = result := by
  by_cases hd : detail = "" <;> simp [fixContradiction, hd, h]

/-- C5: a classification whose action keyword resolved to Fold is never
changed away from Fold — `fixContradiction` returns any Fold result
unchanged, and `parsePokerResponse` still reports Fold whenever the stage
that classified the response (the first valid `ACTION:` line, the
first-line fallback when no `ACTION:` line matches, or the full-text
fallback when the first line is unrecognized) detected Fold. -/
theorem C5_fold_stickiness :
    (∀ (result : ActionRes) (detail fullText raiseAmt : String),
      result.type = .FOLD → fixContradiction result detail fullText raiseAmt = result) ∧
    (∀ (text m : String) (ms : List String),
      jsTrim text ≠ "" → actionLineMatches text = m :: ms →
      (detectAction (jsTrim m) text (extractField text "加注额")).type = .FOLD →
      (parsePokerResponse text).type = .FOLD) ∧
    (∀ text : String,
      jsTrim text ≠ "" → actionLineMatches text = [] →
      (detectAction (jsTrim (strOf (takeLine text.data))) text
          (extractField text "加注额")).type = .FOLD →
      (parsePokerResponse text).type = .FOLD) ∧
    (∀ text : String,
      jsTrim text ≠ "" → actionLineMatches text = [] →
      (detectAction (jsTrim (strOf (takeLine text.data))) text
          (extractField text "加注额")).type = .WARNING →
      (detectAction text text (extractField text "加注额")).type = .FOLD →
      (parsePokerResponse text).type = .FOLD) := by
  refine ⟨fixContradiction_fold, ?_, ?_, ?_⟩
  · intro text m ms htrim hms hfold
    simp only [parsePokerResponse, if_neg htrim, hms, processMatches, hfold,
      fixContradiction_fold _ _ _ _ hfold]
    simp [hfold]
  · intro text htrim hms hfold
    simp only [parsePokerResponse, if_neg htrim, hms, processMatches, hfold,
      fixContradiction_fold _ _ _ _ hfold]
    simp [hfold]
  · intro text htrim hms hwarn hfold
    simp only [parsePokerResponse, if_neg htrim, hms, processMatches, hwarn,
      fixContradiction_fold _ _ _ _ hfold]
    simp [hwarn, hfold]

/-- C5 witness. -/
theorem C5_fold_stickiness_witness :
    (fixContradiction ⟨"弃牌 FOLD", .FOLD⟩ "应该加注" "应该加注" "" = ⟨"弃牌 FOLD", .FOLD⟩) ∧
    (parsePokerResponse "ACTION: FOLD\n分析: 太弱").type = .FOLD ∧
    (parsePokerResponse "弃牌").type = .FOLD :=
  ⟨C5_fold_stickiness.1 ⟨"弃牌 FOLD", .FOLD⟩ "应该加注" "应该加注" "" rfl,
   C5_fold_stickiness.2.1 "ACTION: FOLD\n分析: 太弱" "FOLD" [] (by decide) (by decide)
     (by decide),
   C5_fold_stickiness.2.2.1 "弃牌" (by decide) (by decide) (by decide)⟩

/-- C10: `parsePokerResponse` returns a populated analysis record exactly
when the input has a non-whitespace character: when no structured field is
present the whole trimmed text becomes the detail, so the analysis is
non-null for every non-blank input and null only for blank input. -/
theorem C10_nonblank_analysis :
    ∀ text : String,
      (jsTrim text ≠ "" → (parsePokerResponse text).analysis ≠ none) ∧
      (jsTrim text = "" → (parsePokerResponse text).analysis = none) := by
  intro text
  constructor
  · intro h
    simp only [parsePokerResponse, if_neg h, processMatches_analysis]
    by_cases hany :
        (decide (extractField text "手牌" ≠ "") || decide (extractField text "公共牌" ≠ "") ||
          decide (extractField text "阶段" ≠ "") || decide (extractField text "分析" ≠ "")) =
          true
    · simp only [hany, if_true]
      simp
    · rw [Bool.not_eq_true] at hany
      simp only [hany, if_false]
      simp [h, hany]
  · intro h
    simp [parsePokerResponse, if_pos h]

/-- C10 witness. -/
theorem C10_nonblank_analysis_witness :
    jsTrim "FOLD" ≠ "" ∧ (parsePokerResponse "FOLD").analysis ≠ none :=
  ⟨by decide, (C10_nonblank_analysis "FOLD").1 (by decide)⟩

/-- A waiting-like response is never `SKIP`. -/
lemma waitingLike_ne_skip {t : AdviceType} (hw : waitingLike t = true) : t ≠ .SKIP := by
  intro h; rw [h] at hw; simp [waitingLike] at hw

/-- Two classifications on different sides of the waiting-like split are
distinct. -/
lemma waitingLike_ne {t u : AdviceType} (hwt : waitingLike t = false)
    (hwu : waitingLike u = true) : t ≠ u := by
  intro h; rw [h, hwu] at hwt; simp at hwt

/-! Scenario lemmas for `handleResponse`, stated over a destructured state
(the ten `FSMState` fields) so that each follows by direct evaluation of
the stages. -/

/-- Anti-flicker suppression: in an Acting phase entered under three
seconds ago, with the red button present and no prior waiting
confirmation, a waiting-like response only bumps the counters and
possibly pins the READY analysis. -/
lemma handleResponse_suppress (now : Int) (r : ParsedResponse)
    (b : ButtonDetectionResult) (ph dsp : String) (an pin : Option AnalysisData)
    (a : Nat) (la : Int) (ls : Option (AdviceType × String)) (e : Bool) (pr : Nat)
    (hw : waitingLike r.type = true) (hred : b.hasRedButton = true)
    (hact : isActionPhase ph = true) (hlt : now - la < 3000) :
    handleResponse now r b ⟨ph, dsp, an, pin, 0, a, la, ls, e, pr⟩ =
      ⟨ph, dsp, an,
       (if r.type = .READY && r.analysis.isSome then r.analysis else pin),
       1, 0, la, ls, false, pr⟩ := by
  unfold handleResponse
  simp only [fsmStreakUpdate, fsmAntiFlicker, waitingLike_ne_skip hw, hw, hact, hred]
  simp [hlt]
  split <;> rfl

/-- Pixel-contradiction rejection below the escape threshold, after the
anti-flicker guard has seen a second waiting confirmation: only the
counters, the pixel streak and possibly the pinned analysis change. -/
lemma handleResponse_reject_count (now : Int) (r : ParsedResponse)
    (b : ButtonDetectionResult) (ph dsp : String) (an pin : Option AnalysisData)
    (w a : Nat) (la : Int) (ls : Option (AdviceType × String)) (e : Bool) (pr : Nat)
    (hw : waitingLike r.type = true) (hred : b.hasRedButton = true)
    (hcnt : ¬ w + 1 < 2) (hlow : pr + 1 < PIXEL_REJECT_ESCAPE_THRESHOLD) :
    handleResponse now r b ⟨ph, dsp, an, pin, w, a, la, ls, e, pr⟩ =
      ⟨ph, dsp, an, (if r.analysis.isSome then r.analysis else pin),
       w + 1, 0, la, ls, false, pr + 1⟩ := by
  unfold handleResponse
  simp only [fsmStreakUpdate, fsmAntiFlicker, fsmPixelGuard,
    waitingLike_ne_skip hw, hw, hred]
  by_cases han : r.analysis.isSome = true <;>
    simp [hcnt, Nat.not_le.mpr hlow, han]

/-- Pixel-contradiction rejection below the escape threshold, with the
anti-flicker guard passing because the Acting phase is stale. -/
lemma handleResponse_reject_age (now : Int) (r : ParsedResponse)
    (b : ButtonDetectionResult) (ph dsp : String) (an pin : Option AnalysisData)
    (w a : Nat) (la : Int) (ls : Option (AdviceType × String)) (e : Bool) (pr : Nat)
    (hw : waitingLike r.type = true) (hred : b.hasRedButton = true)
    (hage : ¬ now - la < 3000) (hlow : pr + 1 < PIXEL_REJECT_ESCAPE_THRESHOLD) :
    handleResponse now r b ⟨ph, dsp, an, pin, w, a, la, ls, e, pr⟩ =
      ⟨ph, dsp, an, (if r.analysis.isSome then r.analysis else pin),
       w + 1, 0, la, ls, false, pr + 1⟩ := by
  unfold handleResponse
  simp only [fsmStreakUpdate, fsmAntiFlicker, fsmPixelGuard,
    waitingLike_ne_skip hw, hw, hred]
  by_cases han : r.analysis.isSome = true <;>
    simp [hage, Nat.not_le.mpr hlow, han]

/-- Forced acceptance at the escape threshold over an acting-like
`lastState`: the waiting classification commits, the pixel streak resets. -/
lemma handleResponse_escape (now : Int) (r : ParsedResponse)
    (b : ButtonDetectionResult) (ph dsp : String) (an pin : Option AnalysisData)
    (w a : Nat) (la : Int) (t : AdviceType) (d : String) (e : Bool) (pr : Nat)
    (hw : waitingLike r.type = true) (hred : b.hasRedButton = true)
    (hpass : ¬ w + 1 < 2 ∨ ¬ now - la < 3000)
    (hhi : PIXEL_REJECT_ESCAPE_THRESHOLD ≤ pr + 1)
    (hwt : waitingLike t = false) :
    handleResponse now r b ⟨ph, dsp, an, pin, w, a, la, some (t, d), e, pr⟩ =
      ⟨"WAITING", "等待中...",
       (if r.analysis.isSome then r.analysis else pin),
       (if r.analysis.isSome then r.analysis else pin),
       w + 1, 0, la, some (r.type, r.display), false, 0⟩ := by
  have hne := waitingLike_ne hwt hw
  unfold handleResponse
  simp only [fsmStreakUpdate, fsmAntiFlicker, fsmPixelGuard, fsmAntiMisjudgment,
    fsmDedupCommit, waitingLike_ne_skip hw, hw, hred, hwt, hhi]
  rcases hpass with hcnt | hage <;> by_cases han : r.analysis.isSome = true <;>
    [simp [hcnt, hhi, decide_eq_false hne, han, hwt];
     simp [hcnt, hhi, decide_eq_false hne, han, hwt];
     simp [hage, hhi, decide_eq_false hne, han, hwt];
     simp [hage, hhi, decide_eq_false hne, han, hwt]]

/-- An acting-like response in the Waiting phase with the streak below the
confidence requirement is suppressed before any `UiState` change. -/
lemma handleResponse_acting_suppress (now : Int) (r : ParsedResponse)
    (b : ButtonDetectionResult) (dsp : String) (an pin : Option AnalysisData)
    (w a : Nat) (la : Int) (ls : Option (AdviceType × String)) (e : Bool) (pr : Nat)
    (hnw : waitingLike r.type = false) (hskip : r.type ≠ .SKIP)
    (hlow : a + 1 < requiredConfirms b.confidence) :
    handleResponse now r b ⟨"WAITING", dsp, an, pin, w, a, la, ls, e, pr⟩ =
      ⟨"WAITING", dsp, an, pin, 0, a + 1, la, ls, false, 0⟩ := by
  unfold handleResponse
  simp only [fsmStreakUpdate, fsmAntiFlicker, fsmPixelGuard, fsmAntiMisjudgment,
    hskip, hnw]
  simp [hlow]

/-- An acting-like response in the Waiting phase with no `lastState` and
the streak meeting the confidence requirement commits the action. -/
lemma handleResponse_acting_commit (now : Int) (r : ParsedResponse)
    (b : ButtonDetectionResult) (dsp : String) (an pin : Option AnalysisData)
    (w a : Nat) (la : Int) (e : Bool) (pr : Nat)
    (hnw : waitingLike r.type = false) (hskip : r.type ≠ .SKIP)
    (hok : ¬ a + 1 < requiredConfirms b.confidence) :
    handleResponse now r b ⟨"WAITING", dsp, an, pin, w, a, la, none, e, pr⟩ =
      ⟨adviceTypeStr r.type, r.display,
       (if r.analysis.isSome then r.analysis else pin) <|> r.analysis,
       (if r.analysis.isSome then r.analysis else pin),
       0, a + 1, now, some (r.type, r.display), false, 0⟩ := by
  unfold handleResponse
  simp only [fsmStreakUpdate, fsmAntiFlicker, fsmPixelGuard, fsmAntiMisjudgment,
    fsmDedupCommit, hskip, hnw]
  by_cases han : r.analysis.isSome = true <;> simp [hok, han]

/-- C1 counterexample: with the engine Acting for under three seconds, the
red button present, and no prior confirmations (pixel-override streak 0),
a first Waiting response leaves `UiState` unchanged — and so does the
second consecutive one, which the claim requires to switch to Waiting:
the pixel-contradiction guard rejects it while the red button persists. -/
theorem C1_counterexample :
    (handleResponse 500 ⟨"非本人轮次", .NEUTRAL, none⟩ ⟨true, false, 0, .MEDIUM⟩
        actingState).phase = "ACTION" ∧
    (handleResponse 1000 ⟨"非本人轮次", .NEUTRAL, none⟩ ⟨true, false, 0, .MEDIUM⟩
        (handleResponse 500 ⟨"非本人轮次", .NEUTRAL, none⟩ ⟨true, false, 0, .MEDIUM⟩
          actingState)).phase = "ACTION" ∧
    "ACTION" ≠ "WAITING" ∧
    actingState.consecutivePixelRejectCount = 0 := by
  decide

/-- C1 (amended): if the engine is Acting, the Acting state was entered
less than three seconds ago and the red button is still present, a single
Waiting-classified response leaves `UiState` unchanged; a second
consecutive one passes the anti-flicker window but is then subject to the
pixel-contradiction guard: with the pixel-override streak below the escape
threshold it still leaves `UiState` unchanged (fields refreshed only), and
`UiState` changes to Waiting on the second response exactly when that
response brings the streak to the threshold of five. -/
theorem C1_anti_flicker_window :
    ∀ (now1 now2 : Int) (r : ParsedResponse) (b : ButtonDetectionResult)
      (s : FSMState) (t : AdviceType) (d : String),
      waitingLike r.type = true →
      b.hasRedButton = true →
      isActionPhase s.phase = true →
      s.waitingConfirmCount = 0 →
      s.lastState = some (t, d) →
      waitingLike t = false →
      now1 - s.lastActionSetTime < 3000 →
      now2 - s.lastActionSetTime < 3000 →
      ((handleResponse now1 r b s).phase = s.phase ∧
       (handleResponse now1 r b s).display = s.display ∧
       (handleResponse now1 r b s).analysis = s.analysis) ∧
      (s.consecutivePixelRejectCount + 1 < PIXEL_REJECT_ESCAPE_THRESHOLD →
        (handleResponse now2 r b (handleResponse now1 r b s)).phase = s.phase ∧
        (handleResponse now2 r b (handleResponse now1 r b s)).display = s.display ∧
        (handleResponse now2 r b (handleResponse now1 r b s)).analysis = s.analysis) ∧
      (PIXEL_REJECT_ESCAPE_THRESHOLD ≤ s.consecutivePixelRejectCount + 1 →
        (handleResponse now2 r b (handleResponse now1 r b s)).phase = "WAITING") := by
  intro now1 now2 r b s t d hw hred hact hw0 hls hwt hlt1 hlt2
  obtain ⟨ph, dsp, an, pin, wc, ac, la, ls, e, pr⟩ := s
  obtain rfl : wc = 0 := hw0
  obtain rfl : ls = some (t, d) := hls
  rw [handleResponse_suppress now1 r b ph dsp an pin ac la _ e pr hw hred hact hlt1]
  refine ⟨⟨rfl, rfl, rfl⟩, ?_, ?_⟩
  · intro hlow
    rw [handleResponse_reject_count now2 r b ph dsp an _ 1 0 la _ false pr hw hred
      (by omega) hlow]
    exact ⟨rfl, rfl, rfl⟩
  · intro hhi
    rw [handleResponse_escape now2 r b ph dsp an _ 1 0 la t d false pr hw hred
      (Or.inl (by omega)) hhi hwt]

/-- C1 witness. -/
theorem C1_anti_flicker_window_witness :
    (handleResponse 500 ⟨"非本人轮次", .NEUTRAL, none⟩ ⟨true, false, 0, .MEDIUM⟩
        actingState).phase = "ACTION" ∧
    (handleResponse 1000 ⟨"非本人轮次", .NEUTRAL, none⟩ ⟨true, false, 0, .MEDIUM⟩
        (handleResponse 500 ⟨"非本人轮次", .NEUTRAL, none⟩ ⟨true, false, 0, .MEDIUM⟩
          { actingState with consecutivePixelRejectCount := 4 })).phase = "WAITING" :=
  ⟨(C1_anti_flicker_window 500 1000 ⟨"非本人轮次", .NEUTRAL, none⟩
      ⟨true, false, 0, .MEDIUM⟩ actingState .ACTION "加注 120"
      rfl rfl rfl rfl rfl rfl (by decide) (by decide)).1.1,
   (C1_anti_flicker_window 500 1000 ⟨"非本人轮次", .NEUTRAL, none⟩
      ⟨true, false, 0, .MEDIUM⟩ { actingState with consecutivePixelRejectCount := 4 }
      .ACTION "加注 120" rfl rfl rfl rfl rfl rfl (by decide) (by decide)).2.2
     (by decide)⟩

/-- C2: five consecutive Waiting-classified responses processed while the
red button remains present (here from a stale Acting state, so the
anti-flicker window does not interfere) are rejected on responses one
through four — `UiState` untouched, the pixel-override streak climbing —
and on the fifth the rejection is bypassed: the Waiting classification is
accepted and the streak is reset to zero. -/
theorem C2_pixel_deadlock_escape :
    ∀ (now : Int) (r : ParsedResponse) (b : ButtonDetectionResult)
      (s : FSMState) (t : AdviceType) (d : String),
      waitingLike r.type = true →
      b.hasRedButton = true →
      ¬ now - s.lastActionSetTime < 3000 →
      s.consecutivePixelRejectCount = 0 →
      s.lastState = some (t, d) →
      waitingLike t = false →
      (∀ k : Nat, k < 4 →
        ((handleResponse now r b)^[k + 1] s).phase = s.phase ∧
        ((handleResponse now r b)^[k + 1] s).display = s.display ∧
        ((handleResponse now r b)^[k + 1] s).analysis = s.analysis ∧
        ((handleResponse now r b)^[k + 1] s).consecutivePixelRejectCount = k + 1) ∧
      ((handleResponse now r b)^[5] s).phase = "WAITING" ∧
      ((handleResponse now r b)^[5] s).display = "等待中..." ∧
      ((handleResponse now r b)^[5] s).consecutivePixelRejectCount = 0 := by
  intro now r b s t d hw hred hage hpr0 hls hwt
  obtain ⟨ph, dsp, an, pin, wc, ac, la, ls, e, pr⟩ := s
  obtain rfl : pr = 0 := hpr0
  obtain rfl : ls = some (t, d) := hls
  set A := if r.analysis.isSome then r.analysis else pin with hA
  have collapse : (if r.analysis.isSome then r.analysis else A) = A := by
    by_cases han : r.analysis.isSome = true <;> simp [hA, han]
  have e1 : handleResponse now r b ⟨ph, dsp, an, pin, wc, ac, la, some (t, d), e, 0⟩ =
      ⟨ph, dsp, an, A, wc + 1, 0, la, some (t, d), false, 1⟩ :=
    handleResponse_reject_age now r b ph dsp an pin wc ac la (some (t, d)) e 0
      hw hred hage (by decide)
  have e2 : handleResponse now r b ⟨ph, dsp, an, A, wc + 1, 0, la, some (t, d), false, 1⟩ =
      ⟨ph, dsp, an, A, wc + 1 + 1, 0, la, some (t, d), false, 2⟩ := by
    rw [handleResponse_reject_age now r b ph dsp an A (wc + 1) 0 la (some (t, d)) false 1
      hw hred hage (by decide), collapse]
  have e3 : handleResponse now r b
        ⟨ph, dsp, an, A, wc + 1 + 1, 0, la, some (t, d), false, 2⟩ =
      ⟨ph, dsp, an, A, wc + 1 + 1 + 1, 0, la, some (t, d), false, 3⟩ := by
    rw [handleResponse_reject_age now r b ph dsp an A (wc + 1 + 1) 0 la (some (t, d))
      false 2 hw hred hage (by decide), collapse]
  have e4 : handleResponse now r b
        ⟨ph, dsp, an, A, wc + 1 + 1 + 1, 0, la, some (t, d), false, 3⟩ =
      ⟨ph, dsp, an, A, wc + 1 + 1 + 1 + 1, 0, la, some (t, d), false, 4⟩ := by
    rw [handleResponse_reject_age now r b ph dsp an A (wc + 1 + 1 + 1) 0 la (some (t, d))
      false 3 hw hred hage (by decide), collapse]
  have e5 : handleResponse now r b
        ⟨ph, dsp, an, A, wc + 1 + 1 + 1 + 1, 0, la, some (t, d), false, 4⟩ =
      ⟨"WAITING", "等待中...", A, A, wc + 1 + 1 + 1 + 1 + 1, 0, la,
       some (r.type, r.display), false, 0⟩ := by
    rw [handleResponse_escape now r b ph dsp an A (wc + 1 + 1 + 1 + 1) 0 la t d false 4
      hw hred (Or.inr hage) (by decide) hwt, collapse]
  refine ⟨?_, ?_⟩
  · intro k hk
    interval_cases k <;>
      simp only [Function.iterate_succ_apply', Function.iterate_zero_apply]
    · rw [e1]; exact ⟨rfl, rfl, rfl, rfl⟩
    · rw [e1, e2]; exact ⟨rfl, rfl, rfl, rfl⟩
    · rw [e1, e2, e3]; exact ⟨rfl, rfl, rfl, rfl⟩
    · rw [e1, e2, e3, e4]; exact ⟨rfl, rfl, rfl, rfl⟩
  · simp only [Function.iterate_succ_apply', Function.iterate_zero_apply]
    rw [e1, e2, e3, e4, e5]
    exact ⟨rfl, rfl, rfl⟩

/-- C2 witness. -/
theorem C2_pixel_deadlock_escape_witness :
    ((handleResponse 5000 ⟨"非本人轮次", .NEUTRAL, none⟩
        ⟨true, false, 0, .MEDIUM⟩)^[1] actingState).phase = "ACTION" ∧
    ((handleResponse 5000 ⟨"非本人轮次", .NEUTRAL, none⟩
        ⟨true, false, 0, .MEDIUM⟩)^[5] actingState).phase = "WAITING" := by
  have h := C2_pixel_deadlock_escape 5000 ⟨"非本人轮次", .NEUTRAL, none⟩
    ⟨true, false, 0, .MEDIUM⟩ actingState .ACTION "加注 120"
    rfl rfl (by decide) rfl rfl rfl
  exact ⟨(h.1 0 (by decide)).1, h.2.1⟩

/-- C3: from the Waiting phase, acting-like responses transition the
engine to the Acting `UiState` after exactly one response when the pixel
confidence is HIGH or MEDIUM, and exactly two when it is LOW; while the
acting streak is below the required count, `UiState` is unchanged. -/
theorem C3_confirmation_scaling :
    ∀ (now : Int) (r : ParsedResponse) (b : ButtonDetectionResult) (s : FSMState),
      (r.type = .ACTION ∨ r.type = .FOLD ∨ r.type = .GOOD) →
      s.phase = "WAITING" →
      s.lastState = none →
      s.actionConfirmCount = 0 →
      ((b.confidence = .HIGH ∨ b.confidence = .MEDIUM) →
        isActionPhase (handleResponse now r b s).phase = true ∧
        (handleResponse now r b s).display = r.display) ∧
      (b.confidence = .LOW →
        ((handleResponse now r b s).phase = s.phase ∧
         (handleResponse now r b s).display = s.display ∧
         (handleResponse now r b s).analysis = s.analysis) ∧
        isActionPhase (handleResponse now r b (handleResponse now r b s)).phase = true ∧
        (handleResponse now r b (handleResponse now r b s)).display = r.display) := by
  intro now r b s htype hphase hnone hac0
  have hnw : waitingLike r.type = false := by
    rcases htype with h | h | h <;> simp [waitingLike, h]
  have hskip : r.type ≠ .SKIP := by
    rcases htype with h | h | h <;> simp [h]
  have hphA : isActionPhase (adviceTypeStr r.type) = true := by
    rcases htype with h | h | h <;> simp [h, adviceTypeStr, isActionPhase]
  obtain ⟨ph, dsp, an, pin, wc, ac, la, ls, e, pr⟩ := s
  obtain rfl : ph = "WAITING" := hphase
  obtain rfl : ls = none := hnone
  obtain rfl : ac = 0 := hac0
  constructor
  · intro hc
    have hok : ¬ 0 + 1 < requiredConfirms b.confidence := by
      rcases hc with h | h <;> simp [requiredConfirms, h]
    rw [handleResponse_acting_commit now r b dsp an pin wc 0 la e pr hnw hskip hok]
    exact ⟨hphA, rfl⟩
  · intro hc
    have hlow : 0 + 1 < requiredConfirms b.confidence := by
      simp [requiredConfirms, hc]
    rw [handleResponse_acting_suppress now r b dsp an pin wc 0 la none e pr hnw hskip hlow]
    refine ⟨⟨rfl, rfl, rfl⟩, ?_⟩
    have hok2 : ¬ 0 + 1 + 1 < requiredConfirms b.confidence := by
      simp [requiredConfirms, hc]
    rw [handleResponse_acting_commit now r b dsp an pin 0 (0 + 1) la false 0 hnw hskip hok2]
    exact ⟨hphA, rfl⟩

/-- C3 witness. -/
theorem C3_confirmation_scaling_witness :
    isActionPhase (handleResponse 0 ⟨"加注 120", .ACTION, none⟩
      ⟨true, false, 0, .MEDIUM⟩ initialFSMState).phase = true ∧
    (handleResponse 0 ⟨"加注 120", .ACTION, none⟩ ⟨false, false, 0, .LOW⟩
      initialFSMState).phase = "WAITING" ∧
    isActionPhase (handleResponse 0 ⟨"加注 120", .ACTION, none⟩ ⟨false, false, 0, .LOW⟩
      (handleResponse 0 ⟨"加注 120", .ACTION, none⟩ ⟨false, false, 0, .LOW⟩
        initialFSMState)).phase = true :=
  ⟨((C3_confirmation_scaling 0 ⟨"加注 120", .ACTION, none⟩ ⟨true, false, 0, .MEDIUM⟩
      initialFSMState (Or.inl rfl) rfl rfl rfl).1 (Or.inr rfl)).1,
   ((C3_confirmation_scaling 0 ⟨"加注 120", .ACTION, none⟩ ⟨false, false, 0, .LOW⟩
      initialFSMState (Or.inl rfl) rfl rfl rfl).2 rfl).1.1,
   ((C3_confirmation_scaling 0 ⟨"加注 120", .ACTION, none⟩ ⟨false, false, 0, .LOW⟩
      initialFSMState (Or.inl rfl) rfl rfl rfl).2 rfl).2.1⟩

/-- The anti-flicker guard preserves both confirmation counters. -/
lemma fsmAntiFlicker_counts (now : Int) (r : ParsedResponse)
    (b : ButtonDetectionResult) (p : String) (s res : FSMState)
    (h : fsmAntiFlicker now r b p s = some res) :
    res.waitingConfirmCount = s.waitingConfirmCount ∧
    res.actionConfirmCount = s.actionConfirmCount := by
  unfold fsmAntiFlicker at h
  split at h
  · rw [Option.some.injEq] at h
    subst h
    split <;> exact ⟨rfl, rfl⟩
  · cases h

/-- The pixel guard preserves both confirmation counters. -/
lemma fsmPixelGuard_counts (r : ParsedResponse) (b : ButtonDetectionResult)
    (s x : FSMState)
    (h : fsmPixelGuard r b s = Sum.inl x ∨ fsmPixelGuard r b s = Sum.inr x) :
    x.waitingConfirmCount = s.waitingConfirmCount ∧
    x.actionConfirmCount = s.actionConfirmCount := by
  unfold fsmPixelGuard at h
  by_cases h1 : (waitingLike r.type && b.hasRedButton) = true
  · rw [if_pos h1] at h
    by_cases h2 : PIXEL_REJECT_ESCAPE_THRESHOLD ≤ s.consecutivePixelRejectCount + 1
    · rw [if_pos h2] at h
      rcases h with h | h
      · rw [Sum.inl.injEq] at h; subst h; exact ⟨rfl, rfl⟩
      · simp at h
    · rw [if_neg h2] at h
      by_cases h3 : r.analysis.isSome = true
      · rw [if_pos h3] at h
        rcases h with h | h
        · simp at h
        · rw [Sum.inr.injEq] at h; subst h; exact ⟨rfl, rfl⟩
      · rw [if_neg h3] at h
        rcases h with h | h
        · simp at h
        · rw [Sum.inr.injEq] at h; subst h; exact ⟨rfl, rfl⟩
  · rw [if_neg h1] at h
    rcases h with h | h
    · rw [Sum.inl.injEq] at h; subst h; exact ⟨rfl, rfl⟩
    · simp at h

/-- The dedup/commit stage preserves both confirmation counters. -/
lemma fsmDedupCommit_counts (now : Int) (r : ParsedResponse) (s : FSMState) :
    (fsmDedupCommit now r s).waitingConfirmCount = s.waitingConfirmCount ∧
    (fsmDedupCommit now r s).actionConfirmCount = s.actionConfirmCount := by
  simp only [fsmDedupCommit]
  repeat' split
  all_goals exact ⟨rfl, rfl⟩

/-- C6 counterexample: `handleButtonAppeared` pre-seeds the acting streak
without resetting the waiting streak, and the early-waiting branch of
`handleStreamDelta` increments the waiting streak without resetting the
acting streak, so after either operation both counters can be nonzero. -/
theorem C6_counterexample :
    ((handleButtonAppeared
        { initialFSMState with waitingConfirmCount := 1 }).waitingConfirmCount ≠ 0 ∧
     (handleButtonAppeared
        { initialFSMState with waitingConfirmCount := 1 }).actionConfirmCount ≠ 0) ∧
    ((handleStreamDelta 0 "ACTION: WAITING" ⟨false, false, 0, .LOW⟩
        { initialFSMState with actionConfirmCount := 1 }).waitingConfirmCount ≠ 0 ∧
     (handleStreamDelta 0 "ACTION: WAITING" ⟨false, false, 0, .LOW⟩
        { initialFSMState with actionConfirmCount := 1 }).actionConfirmCount ≠ 0) := by
  decide

/-- C6 (amended): `handleResponse` keeps the confirmation counters
mutually exclusive — for every non-Skip response, incrementing one counter
resets the other, so afterwards at most one of them is nonzero.  (The
auxiliary operations `handleButtonAppeared` and `handleStreamDelta`'s
early-waiting branch only pre-seed or bump one counter and can leave both
nonzero.) -/
theorem C6_streak_exclusivity :
    ∀ (now : Int) (r : ParsedResponse) (b : ButtonDetectionResult) (s : FSMState),
      r.type ≠ .SKIP →
      (handleResponse now r b s).waitingConfirmCount = 0 ∨
      (handleResponse now r b s).actionConfirmCount = 0 := by
  intro now r b s hskip
  unfold handleResponse
  rw [if_neg hskip]
  have hcnt : (fsmStreakUpdate (waitingLike r.type)
        { s with earlyActionDetected := false }).waitingConfirmCount = 0 ∨
      (fsmStreakUpdate (waitingLike r.type)
        { s with earlyActionDetected := false }).actionConfirmCount = 0 := by
    cases hwc : waitingLike r.type <;> simp [fsmStreakUpdate, hwc]
  rcases haf : fsmAntiFlicker now r b ({ s with earlyActionDetected := false } : FSMState).phase
      (fsmStreakUpdate (waitingLike r.type) { s with earlyActionDetected := false })
    with _ | res
  · simp only [haf]
    rcases hpg : fsmPixelGuard r b
        (fsmStreakUpdate (waitingLike r.type) { s with earlyActionDetected := false })
      with x | x
    · simp only [hpg]
      have h2 := fsmPixelGuard_counts r b _ x (Or.inl hpg)
      split
      · rcases hcnt with h | h
        · exact Or.inl (h2.1.trans h)
        · exact Or.inr (h2.2.trans h)
      · have h1 := fsmDedupCommit_counts now r x
        rcases hcnt with h | h
        · exact Or.inl (h1.1.trans (h2.1.trans h))
        · exact Or.inr (h1.2.trans (h2.2.trans h))
    · simp only [hpg]
      have h2 := fsmPixelGuard_counts r b _ x (Or.inr hpg)
      rcases hcnt with h | h
      · exact Or.inl (h2.1.trans h)
      · exact Or.inr (h2.2.trans h)
  · simp only [haf]
    have h2 := fsmAntiFlicker_counts now r b _ _ res haf
    rcases hcnt with h | h
    · exact Or.inl (h2.1.trans h)
    · exact Or.inr (h2.2.trans h)

/-- C6 witness. -/
theorem C6_streak_exclusivity_witness :
    (handleResponse 0 ⟨"非本人轮次", .NEUTRAL, none⟩ ⟨false, false, 0, .LOW⟩
        actingState).waitingConfirmCount = 0 ∨
    (handleResponse 0 ⟨"非本人轮次", .NEUTRAL, none⟩ ⟨false, false, 0, .LOW⟩
        actingState).actionConfirmCount = 0 :=
  C6_streak_exclusivity 0 ⟨"非本人轮次", .NEUTRAL, none⟩ ⟨false, false, 0, .LOW⟩
    actingState (by decide)

end PokerSight
